import Mathlib

/-!
# Verification of the caccl-api endpoint-dispatch and caching layer

Shallow embedding of the core of the caccl-api repository:

* `classes/EndpointCategory.js` — config pre-processing (`_preProcessParams`),
  cache initialization, and the `uncache` closure with wildcard expansion;
* `wrapVisitEndpoint.js` — the wrapper that consults the cache, injects the
  access token, sends the request, populates the cache and processes the
  invalidation envelope;
* the endpoint catalogue files (`Other.endpoint`, `GroupSet.create`, ...)
  where a claim needs a concrete endpoint.

JavaScript strings are modelled through their character lists; JS objects and
`Map`s holding cached values are modelled as association lists keyed by path.
Components of the repository that are not part of the provided sources
(`classes/instantiateEndpoint`, the caches' method bodies, the retry loop of
`genVisitEndpoint`) are modelled from the specification; every such definition
carries a doc comment starting with `Modelled from the spec:`.
-/

namespace CacclApi

/-! ## JS string primitives -/

/-- JS `s.startsWith(p)`: `p`'s characters are a prefix of `s`'s. -/
def jsStartsWith (s p : String) : Bool :=
  p.toList.isPrefixOf s.toList

/-- JS `s.endsWith(p)`: `p`'s characters are a suffix of `s`'s. -/
def jsEndsWith (s p : String) : Bool :=
  p.toList.isSuffixOf s.toList

/-- JS `s.split('*')[0]`: the characters of `s` strictly before the first
`'*'` (the whole of `s` when there is none). -/
def jsSplitStarHead (s : String) : String :=
  ⟨s.toList.takeWhile (fun c => c ≠ '*')⟩

/-! ## Cache model

`MemoryCache` is required by `EndpointCategory` but its method bodies are not
among the provided sources. -/

/-- A cache is a finite map from path strings to stored values, modelled as an
association list (latest binding first). -/
abbrev Cache (α : Type) := List (String × α)

/-- Modelled from the spec: `MemoryCache.get` (spec §4.1 `get(key) -> value |
absent`, "in-process map-backed cache"): lookup of the first binding for the
key. -/
def cacheGet {α : Type} : Cache α → String → Option α
  | [], _ => none
  | (k, v) :: rest, key => if key = k then some v else cacheGet rest key

/-- Modelled from the spec: `MemoryCache.set` (spec §4.1 `set(key, value)`):
bind `key` to `value`, replacing any previous binding. -/
def cacheSet {α : Type} (c : Cache α) (key : String) (v : α) : Cache α :=
  (key, v) :: c.filter (fun e => e.1 ≠ key)

/-- Modelled from the spec: `MemoryCache` single-key deletion (spec §4.1
`delete(key)`; `clear` in `wrapVisitEndpoint`): drop every binding for the
key. -/
def cacheClear {α : Type} (c : Cache α) (key : String) : Cache α :=
  c.filter (fun e => e.1 ≠ key)

/-- Modelled from the spec: `MemoryCache.getAllPaths` (spec §4.1
`listAllKeys() -> sequence of key`): the list of currently cached keys. -/
def getAllPaths {α : Type} (c : Cache α) : List String :=
  c.map (fun e => e.1)

/-- Modelled from the spec: `MemoryCache.deletePaths` (spec §4.1
`deleteMany(keys)`): drop every binding whose key is listed. -/
def deletePaths {α : Type} (c : Cache α) (paths : List String) : Cache α
  := c.filter (fun e => ¬ e.1 ∈ paths)

/-! ## The `uncache` closure of `EndpointCategory._preProcessParams`

Source (`classes/EndpointCategory.js`): given the invalidation `paths` and the
cache's current key listing, each path ending in `'*'` is expanded to every
cached path starting with `path.split('*')[0]`, every other path is taken
literally, and the collected paths are deleted. -/

/-- The `pathsToUncache` array built by the `uncache` closure: for each entry
of `paths` in order, either the wildcard expansion against `cachedPaths` or
the literal entry itself. -/
def pathsToUncache (cachedPaths : List String) : List String → List String
  | [] => []
  | path :: rest =>
      (if jsEndsWith path "*" then
        cachedPaths.filter (fun cp => jsStartsWith cp (jsSplitStarHead path))
      else [path]) ++ pathsToUncache cachedPaths rest

/-- One run of the `uncache` closure over a cache: compute the current key
listing, expand the invalidation set against it, and delete the collected
paths.  (The closure then resolves with the response it was handed, which it
does not inspect.) -/
def uncacheRun {α : Type} (paths : List String) (c : Cache α) : Cache α :=
  deletePaths c (pathsToUncache (getAllPaths c) paths)

/-! ## `wrapVisitEndpoint`

Source (`wrapVisitEndpoint.js`): the wrapper consults the cache (hit: resolve
with the cached value, zero requests), otherwise overwrites
`options.params.access_token` with `config.accessToken`, calls
`config.visitEndpoint`, un-wraps an invalidation envelope, stores the payload
(or the in-flight promise) in the cache whenever a cache exists, clears each
key listed in the envelope, and resolves the internal promise chain with the
un-wrapped payload.  The outer arrow function has no `return` statement on the
cache-miss path (`valuePromise` is built but never returned), so on a miss the
wrapper itself returns `undefined` even though the chain still runs. -/

/-- What a cache slot holds in `wrapVisitEndpoint`: the raw payload, or (when
`config.cache.storePromises`) the in-flight `valuePromise`, which resolves to
that payload. -/
inductive CacheEntry (α : Type) where
  | value (v : α)
  | promise (v : α)
  deriving DecidableEq, Repr

/-- The payload a cache entry resolves to when read back (a stored promise
flattens to its payload under `Promise.resolve`). -/
def CacheEntry.payload {α : Type} : CacheEntry α → α
  | .value v => v
  | .promise v => v

/-- The `options` object handed to the wrapped `visitEndpoint` (and, after the
in-place `access_token` assignment, to the underlying `config.visitEndpoint`).
Parameter values are strings. -/
structure ReqOptions where
  path : String
  method : String
  params : List (String × String)
  deriving DecidableEq, Repr

/-- What the underlying `config.visitEndpoint` resolves with: either the plain
payload, or an invalidation envelope `{response, uncache}` (the
`endpointResults.uncache` array check in the source). -/
inductive EndpointResults (α : Type) where
  | plain (v : α)
  | withUncache (v : α) (uncache : List String)
  deriving DecidableEq, Repr

/-- The `config` closed over by `wrapVisitEndpoint`: the resolved access
token, the optional cache (with its `storePromises` capability flag) and the
underlying `visitEndpoint` transport. -/
structure WrapConfig (α : Type) where
  accessToken : String
  cache : Option (Cache (CacheEntry α))
  storePromises : Bool
  visitEndpoint : ReqOptions → EndpointResults α

/-- JS property assignment `params.access_token = v`: replace any existing
`access_token` binding. -/
def setParam (params : List (String × String)) (key v : String) :
    List (String × String) :=
  (key, v) :: params.filter (fun e => e.1 ≠ key)

/-- Everything observable about one invocation of the wrapped function:
`returned` is the value (if any) the outer arrow function returns a promise
of — `none` means the function returned `undefined`; `chain` is what the
internal `valuePromise` chain resolves to; `sent` is the request actually
passed to the underlying transport; `networkCalls` counts transport
invocations; `cacheAfter` is the cache once the chain has settled. -/
structure WrapOutcome (α : Type) where
  returned : Option α
  chain : Option α
  sent : Option ReqOptions
  networkCalls : Nat
  cacheAfter : Option (Cache (CacheEntry α))
  deriving Repr

/-- The cache-miss path of `wrapVisitEndpoint`: inject the token, send the
request, un-wrap the envelope, store, clear the envelope's keys.  `returned`
is `none` because the source never returns `valuePromise`. -/
def wrapMiss {α : Type} (cfg : WrapConfig α) (options : ReqOptions) :
    WrapOutcome α :=
  let requestOptions : ReqOptions :=
    { options with params := setParam options.params "access_token" cfg.accessToken }
  let endpointResults := cfg.visitEndpoint requestOptions
  let uncacheExcluded :=
    match endpointResults with
    | .plain _ => true
    | .withUncache _ _ => false
  let response :=
    match endpointResults with
    | .plain v => v
    | .withUncache v _ => v
  let uncacheKeys :=
    match endpointResults with
    | .plain _ => []
    | .withUncache _ u => u
  let cacheAfter :=
    match cfg.cache with
    | none => none
    | some c =>
        let stored :=
          if cfg.storePromises then
            cacheSet c options.path (CacheEntry.promise response)
          else
            cacheSet c options.path (CacheEntry.value response)
        some (if uncacheExcluded then stored
              else uncacheKeys.foldl (fun acc key => cacheClear acc key) stored)
  { returned := none
    chain := some response
    sent := some requestOptions
    networkCalls := 1
    cacheAfter := cacheAfter }

/-- One invocation of the function returned by `wrapVisitEndpoint(config)`:
on a cache hit resolve with the cached value and touch nothing; otherwise run
the miss path. -/
def wrapCall {α : Type} (cfg : WrapConfig α) (options : ReqOptions) :
    WrapOutcome α :=
  match cfg.cache with
  | some c =>
      match cacheGet c options.path with
      | some entry =>
          { returned := some entry.payload
            chain := none
            sent := none
            networkCalls := 0
            cacheAfter := some c }
      | none => wrapMiss cfg options
  | none => wrapMiss cfg options

/-- Two sequential invocations of the same wrapped function with the same
`options`, the second seeing the cache state the first left behind (the first
call's promise chain has settled before the second call starts). -/
def wrapTwice {α : Type} (cfg : WrapConfig α) (options : ReqOptions) :
    WrapOutcome α × WrapOutcome α :=
  let first := wrapCall cfg options
  let second := wrapCall { cfg with cache := first.cacheAfter } options
  (first, second)

/-! ## `EndpointCategory._preProcessParams`

Source (`classes/EndpointCategory.js`): the method starts with
`const config = oldConfig;`, so every assignment below acts on the caller's
own object — the returned config IS the argument, mutated in place.  We model
the method as a function from the object's state before the call to its state
after the call (which, by that aliasing, is also the returned config). -/

/-- Error codes thrown by the layer (from `errorCodes`; only the ones the
modelled code raises). -/
inductive CacclErr where
  | invalidCache
  | missingParameter (fields : List String)
  | requestFailed
  deriving DecidableEq, Repr

/-- The cache instance held in `config.cache`: one the caller provided, or a
`MemoryCache` / `SessionCache` the constructor created. -/
inductive CacheInst where
  | provided
  | memory
  | session
  deriving DecidableEq, Repr

/-- The function stored in `config.uncache`: one the caller provided, the
closure built over `config.cache`, or the dummy that only resolves with the
response. -/
inductive UncacheKind where
  | provided
  | fromCache
  | dummy
  deriving DecidableEq, Repr

/-- The fields of the `config` object that `_preProcessParams` reads or
writes.  `api` records whether `config.api` is set (truthy); `req` whether a
session handle was supplied. -/
structure EcConfig where
  api : Bool
  cache : Option CacheInst
  cacheType : Option String
  req : Bool
  uncache : Option UncacheKind
  deriving DecidableEq, Repr

/-- JS truthiness of the string-valued `config.cacheType`: present and
non-empty. -/
def jsTruthyStr : Option String → Bool
  | none => false
  | some s => s ≠ ""

/-- The cache-initialization block of `_preProcessParams`: skipped entirely
when `config.cache` is already set; otherwise `'memory'` creates a
`MemoryCache`, `'session'` with `config.req` creates a `SessionCache`, and any
other truthy `cacheType` throws the `invalid_cache` error. -/
def initCacheStep (config : EcConfig) : Except CacclErr EcConfig :=
  if config.cache.isSome then .ok config
  else if config.cacheType = some "memory" then
    .ok { config with cache := some CacheInst.memory }
  else if config.cacheType = some "session" ∧ config.req then
    .ok { config with cache := some CacheInst.session }
  else if jsTruthyStr config.cacheType then .error CacclErr.invalidCache
  else .ok config

/-- The uncache-initialization block: when `config.uncache` is unset, install
the cache-backed closure if a cache exists, else the dummy. -/
def initUncacheStep (config : EcConfig) : EcConfig :=
  if config.uncache.isSome then config
  else if config.cache.isSome then { config with uncache := some UncacheKind.fromCache }
  else { config with uncache := some UncacheKind.dummy }

/-- `_preProcessParams` in full: set `config.api` to `this` when unset, run
the cache block, run the uncache block.  Because of the `const config =
oldConfig;` aliasing, the `.ok` result is both the returned config and the
state of the caller's object after the call. -/
def preProcessParams (oldConfig : EcConfig) : Except CacclErr EcConfig :=
  let config := if oldConfig.api then oldConfig else { oldConfig with api := true }
  (initCacheStep config).map initUncacheStep

/-! ## The Endpoint Binder (`classes/instantiateEndpoint`)

`EndpointCategory`'s constructor hands each `endpointCoreFunction` together
with its `requiredParams` to `instantiateEndpoint`, whose body is not among
the provided sources. -/

/-- The options object passed to an Operation: argument name to value
(strings; JS falsy empty string included). -/
abbrev CallOptions := List (String × String)

/-- Look an argument up in the call options. -/
def optGet : CallOptions → String → Option String
  | [], _ => none
  | (k, v) :: rest, key => if key = k then some v else optGet rest key

/-- JS `a || b` on an optional string argument: the supplied value unless it
is absent or falsy (empty), else the default. -/
def jsOr (v : Option String) (dflt : String) : String :=
  match v with
  | none => dflt
  | some s => if s = "" then dflt else s

/-- The request an endpoint core function asks `visitEndpoint` to perform. -/
structure ReqShape where
  path : String
  method : String
  params : List (String × String)
  deriving DecidableEq, Repr

/-- Modelled from the spec: `classes/instantiateEndpoint` is not among the
provided sources; per spec §4.4/§7, the bound Operation "validates presence of
all `requiredParams` (fails fast with `MissingParameter`, naming every missing
field, before any network access)" and only then runs the core function.  The
result pairs the outcome with the number of requests dispatched. -/
def invokeEndpoint (requiredParams : List String) (core : CallOptions → ReqShape)
    (opts : CallOptions) : Except CacclErr ReqShape × Nat :=
  let missing := requiredParams.filter (fun r => (optGet opts r).isNone)
  if missing = [] then (.ok (core opts), 1)
  else (.error (CacclErr.missingParameter missing), 0)

/-- `GroupSet.create`'s request (source `GroupSet.js`): POST to
`/api/v1/courses/{courseId}/group_categories` with
`name: options.name || 'Unnamed Group Set'`. -/
def groupSetCreateCore (opts : CallOptions) : ReqShape :=
  { path := "/api/v1/courses/" ++ jsOr (optGet opts "courseId") "undefined"
      ++ "/group_categories"
    method := "POST"
    params := [("name", jsOr (optGet opts "name") "Unnamed Group Set")] }

/-- `GroupSet.create.requiredParams` from the source. -/
def groupSetCreateRequiredParams : List String := ["courseId", "name"]

/-! ## The retry loop

`genVisitEndpoint` / the request dispatcher is not among the provided
sources. -/

/-- What one transport attempt produces: a transient failure or a success
payload. -/
inductive TransportResult (α : Type) where
  | transient
  | ok (v : α)
  deriving DecidableEq, Repr

/-- Modelled from the spec: the retry loop of the request dispatcher
(`genVisitEndpoint`), not among the provided sources; per spec §4.3, "on a
transient failure retries up to the configured retry count with the same
parameters; retry count of 0 means exactly one attempt, no retry", and
exhaustion surfaces as `RequestFailed`.  `attempt` numbers the transport
invocations from 0; `retriesLeft` is how many retries remain.  Returns the
outcome together with the number of transport invocations performed. -/
def retryGo {α : Type} (transport : Nat → TransportResult α) :
    Nat → Nat → Except CacclErr α × Nat
  | attempt, retriesLeft =>
      match transport attempt with
      | .ok v => (.ok v, 1)
      | .transient =>
          match retriesLeft with
          | 0 => (.error CacclErr.requestFailed, 1)
          | r + 1 =>
              let rest := retryGo transport (attempt + 1) r
              (rest.1, rest.2 + 1)

/-- Modelled from the spec: run a request with `numRetries` configured —
attempt 0 first, then up to `numRetries` retries. -/
def runWithRetries {α : Type} (transport : Nat → TransportResult α)
    (numRetries : Nat) : Except CacclErr α × Nat :=
  retryGo transport 0 numRetries

/-! ## `Other.endpoint`

Source (`endpoints/API/Other/index.js`): after the request resolves, the
endpoint calls `this.uncache(['*'], response)`. -/

/-- The invalidation set `Other.endpoint` passes to `this.uncache`. -/
def otherEndpointUncachePaths : List String := ["*"]

/-! ## Concrete demo data used by witnesses -/

/-- A two-entry invalidation set with one wildcard, for exercising the
wildcard theorem on concrete data. -/
def wildcardDemoPaths : List String := ["/api/v1/courses/42/*", "/api/v1/other"]

/-- A two-entry cache: one key under the wildcard prefix, one unrelated. -/
def wildcardDemoCache : Cache Nat :=
  [("/api/v1/courses/42/assignments", 1), ("/api/v1/users/9", 2)]

/-- A transport that fails transiently twice, then succeeds. -/
def retryDemoOk : Nat → TransportResult Nat :=
  fun i => if i < 2 then TransportResult.transient else TransportResult.ok 7

/-- A transport that always fails transiently. -/
def retryDemoFail : Nat → TransportResult Nat :=
  fun _ => TransportResult.transient

/-- The empty config: the caller supplied nothing. -/
def emptyEcConfig : EcConfig :=
  { api := false, cache := none, cacheType := none, req := false,
    uncache := none }

/-- The state of the empty config object once `_preProcessParams` has run on
it: `api` set, the dummy `uncache` installed. -/
def mutatedEcConfig : EcConfig :=
  { api := true, cache := none, cacheType := none, req := false,
    uncache := some UncacheKind.dummy }

/-! ## Helper lemmas -/

/-- Every string starts with the empty prefix. -/
theorem jsStartsWith_empty (s : String) : jsStartsWith s "" = true := by
  simp [jsStartsWith]

/-- Appending the wildcard marker yields a string that ends with it. -/
theorem jsEndsWith_append_star (P : String) : jsEndsWith (P ++ "*") "*" = true := by
  simp only [jsEndsWith, List.isSuffixOf_iff_suffix, String.toList]
  rw [String.data_append]
  exact List.suffix_append P.data "*".data

/-- A key listed for deletion is absent afterwards. -/
theorem cacheGet_deletePaths_of_mem {α : Type} (c : Cache α) (ps : List String)
    (k : String) (hk : k ∈ ps) : cacheGet (deletePaths c ps) k = none := by
  induction c with
  | nil => rfl
  | cons e rest ih =>
      by_cases hmem : e.1 ∈ ps
      · simp [deletePaths, List.filter, hmem] at ih ⊢
        exact ih
      · have hne : k ≠ e.1 := fun h => hmem (h ▸ hk)
        simp [deletePaths, List.filter, hmem, cacheGet, hne] at ih ⊢
        exact ih

/-- A key not listed for deletion keeps its binding. -/
theorem cacheGet_deletePaths_of_not_mem {α : Type} (c : Cache α) (ps : List String)
    (k : String) (hk : ¬ k ∈ ps) :
    cacheGet (deletePaths c ps) k = cacheGet c k := by
  induction c with
  | nil => rfl
  | cons e rest ih =>
      by_cases hmem : e.1 ∈ ps
      · have hne : k ≠ e.1 := fun h => hk (h ▸ hmem)
        simp [deletePaths, List.filter, hmem, cacheGet, hne] at ih ⊢
        exact ih
      · by_cases hke : k = e.1
        · simp [deletePaths, List.filter, hmem, cacheGet, hke]
        · simp [deletePaths, List.filter, hmem, cacheGet, hke] at ih ⊢
          exact ih

/-- A cached key matching the wildcard's computed prefix is collected by the
wildcard expansion. -/
theorem mem_pathsToUncache_of_wildcard (paths cachedPaths : List String)
    (P k : String) (hmem : (P ++ "*") ∈ paths)
    (hP : jsSplitStarHead (P ++ "*") = P)
    (hk : k ∈ cachedPaths) (hpre : jsStartsWith k P = true) :
    k ∈ pathsToUncache cachedPaths paths := by
  induction paths with
  | nil => cases hmem
  | cons q rest ih =>
      rcases List.mem_cons.mp hmem with hq | hq
      · subst hq
        simp only [pathsToUncache, jsEndsWith_append_star, if_pos, List.mem_append]
        left
        rw [hP]
        exact List.mem_filter.mpr ⟨hk, hpre⟩
      · simp only [pathsToUncache, List.mem_append]
        right
        exact ih hq

/-- A key that does not match the wildcard prefix and is not a literal entry
of a set whose only wildcard is `P ++ "*"` is never collected. -/
theorem not_mem_pathsToUncache (paths cachedPaths : List String) (P k : String)
    (hP : jsSplitStarHead (P ++ "*") = P)
    (honly : ∀ q ∈ paths, q = P ++ "*" ∨ jsEndsWith q "*" = false)
    (hpre : jsStartsWith k P = false) (hk : ¬ k ∈ paths) :
    ¬ k ∈ pathsToUncache cachedPaths paths := by
  induction paths with
  | nil => intro h; cases h
  | cons q rest ih =>
      have hq := honly q (List.mem_cons_self q rest)
      have hkq : k ≠ q := fun h => hk (h ▸ List.mem_cons_self q rest)
      have hkrest : ¬ k ∈ rest := fun h => hk (List.mem_cons_of_mem q h)
      have ihr := ih (fun p hp => honly p (List.mem_cons_of_mem q hp)) hkrest
      intro habs
      rcases hq with hq | hq
      · subst hq
        simp only [pathsToUncache, jsEndsWith_append_star, if_pos,
          List.mem_append] at habs
        rcases habs with habs | habs
        · rw [hP] at habs
          have := (List.mem_filter.mp habs).2
          rw [hpre] at this
          cases this
        · exact ihr habs
      · simp [pathsToUncache, hq] at habs
        rcases habs with habs | habs
        · exact hkq habs
        · exact ihr habs

/-- The key of every binding of a cache appears in its key listing. -/
theorem mem_getAllPaths {α : Type} (c : Cache α) (e : String × α) (he : e ∈ c) :
    e.1 ∈ getAllPaths c := by
  exact List.mem_map.mpr ⟨e, he, rfl⟩

/-- Deleting every currently listed key empties the cache. -/
theorem deletePaths_getAllPaths {α : Type} (c : Cache α) :
    deletePaths c (getAllPaths c) = [] := by
  rw [deletePaths, List.filter_eq_nil_iff]
  intro e he
  simp [mem_getAllPaths c e he]

/-- Retry loop, success case: `k` transient failures from `start` followed by
a success consume exactly `k + 1` attempts and succeed. -/
theorem retryGo_ok {α : Type} (t : Nat → TransportResult α) (v : α) :
    ∀ (k start : Nat), (∀ i, i < k → t (start + i) = .transient) →
      t (start + k) = .ok v → retryGo t start k = (.ok v, k + 1) := by
  intro k
  induction k with
  | zero =>
      intro start _ hok
      simp only [Nat.add_zero] at hok
      simp [retryGo, hok]
  | succ k ih =>
      intro start hlt hok
      have h0 : t start = .transient := by
        have := hlt 0 (Nat.succ_pos k)
        simpa using this
      have hlt' : ∀ i, i < k → t (start + 1 + i) = .transient := by
        intro i hi
        have hstep := hlt (i + 1) (Nat.succ_lt_succ hi)
        have harith : start + 1 + i = start + (i + 1) := by omega
        rw [harith]
        exact hstep
      have hok' : t (start + 1 + k) = .ok v := by
        have harith : start + 1 + k = start + (k + 1) := by omega
        rw [harith]
        exact hok
      have := ih (start + 1) hlt' hok'
      simp [retryGo, h0, this]

/-- Retry loop, exhaustion case: `k + 1` consecutive transient failures from
`start` consume exactly `k + 1` attempts and fail. -/
theorem retryGo_exhaust {α : Type} (t : Nat → TransportResult α) :
    ∀ (k start : Nat), (∀ i, i ≤ k → t (start + i) = .transient) →
      retryGo t start k = (.error CacclErr.requestFailed, k + 1) := by
  intro k
  induction k with
  | zero =>
      intro start hle
      have h0 : t start = .transient := by simpa using hle 0 (Nat.le_refl 0)
      simp [retryGo, h0]
  | succ k ih =>
      intro start hle
      have h0 : t start = .transient := by simpa using hle 0 (Nat.zero_le _)
      have hle' : ∀ i, i ≤ k → t (start + 1 + i) = .transient := by
        intro i hi
        have hstep := hle (i + 1) (Nat.succ_le_succ hi)
        have harith : start + 1 + i = start + (i + 1) := by omega
        rw [harith]
        exact hstep
      have := ih (start + 1) hle'
      simp [retryGo, h0, this]

/-! ## Claims -/

/-- C1.  Two invocations of the same cached GET with identical parameters on
an initially empty cache: the pair performs exactly one underlying network
call and the second invocation resolves with the cached payload, but the two
return values are NOT identical — the first invocation returns `undefined`
(`wrapVisitEndpoint` builds `valuePromise` on the cache-miss path but never
returns it), contradicting the claim's "the two return values are identical"
and the source's own `// > Resolve with result` comment. -/
theorem c1_double_call_first_returns_undefined :
    (wrapTwice
        { accessToken := "tok", cache := some [], storePromises := false,
          visitEndpoint := fun _ => EndpointResults.plain (7 : Nat) }
        { path := "/api/v1/users/self/profile", method := "GET",
          params := [] }).1.networkCalls
      + (wrapTwice
        { accessToken := "tok", cache := some [], storePromises := false,
          visitEndpoint := fun _ => EndpointResults.plain (7 : Nat) }
        { path := "/api/v1/users/self/profile", method := "GET",
          params := [] }).2.networkCalls = 1
    ∧ (wrapTwice
        { accessToken := "tok", cache := some [], storePromises := false,
          visitEndpoint := fun _ => EndpointResults.plain (7 : Nat) }
        { path := "/api/v1/users/self/profile", method := "GET",
          params := [] }).2.returned = some 7
    ∧ (wrapTwice
        { accessToken := "tok", cache := some [], storePromises := false,
          visitEndpoint := fun _ => EndpointResults.plain (7 : Nat) }
        { path := "/api/v1/users/self/profile", method := "GET",
          params := [] }).1.returned = none := by
  exact ⟨rfl, rfl, rfl⟩

/-- C4.  The caller supplies an explicit `access_token` request parameter
(`"callerTok"`), yet the request actually sent carries the configured token
(`"configTok"`): `wrapVisitEndpoint` assigns
`requestOptions.params.access_token = config.accessToken` unconditionally,
clobbering the override that `EndpointCategory`'s own doc comment promises
("This may be overridden in any request by including an access_token query
parameter"). -/
theorem c4_config_token_clobbers_caller_token :
    ((wrapCall
        { accessToken := "configTok", cache := none, storePromises := false,
          visitEndpoint := fun _ => EndpointResults.plain (1 : Nat) }
        { path := "/p", method := "GET",
          params := [("access_token", "callerTok")] }).sent.map
      (fun r => optGet r.params "access_token")) = some (some "configTok") := by
  rfl

/-- C6.  On a cache miss the wrapped `visitEndpoint` returns `undefined`
rather than a payload or a typed error: the outer arrow function of
`wrapVisitEndpoint` has no `return` statement on the miss path, so the caller
receives no value at all (the network call and the cache write still happen
inside the orphaned promise chain). -/
theorem c6_miss_returns_undefined :
    (wrapCall
        { accessToken := "t", cache := some [], storePromises := false,
          visitEndpoint := fun _ => EndpointResults.plain (5 : Nat) }
        { path := "/api/v1/courses/42", method := "GET", params := [] }).returned
      = none
    ∧ (wrapCall
        { accessToken := "t", cache := some [], storePromises := false,
          visitEndpoint := fun _ => EndpointResults.plain (5 : Nat) }
        { path := "/api/v1/courses/42", method := "GET", params := [] }).networkCalls
      = 1 := by
  exact ⟨rfl, rfl⟩

/-- C2, counterexample.  An invalidation set holding the wildcard pattern
`"/a/" ++ "*"` together with a second wildcard `"/b/*"`: the cached key
`"/b/x"` neither starts with the prefix `"/a/"` nor is named literally in the
set, yet it is gone after the `uncache` run — the claim's "remains cached"
part fails as soon as the set holds another wildcard. -/
theorem c2_second_wildcard_deletes_unrelated_key :
    ("/a/" ++ "*") ∈ ["/a/*", "/b/*"]
    ∧ jsStartsWith "/b/x" "/a/" = false
    ∧ ¬ "/b/x" ∈ ["/a/*", "/b/*"]
    ∧ cacheGet ([("/b/x", (0 : Nat))] : Cache Nat) "/b/x" = some 0
    ∧ cacheGet (uncacheRun ["/a/*", "/b/*"] ([("/b/x", (0 : Nat))] : Cache Nat))
        "/b/x" = none := by
  exact ⟨by decide, by decide, by decide, rfl, rfl⟩

/-- C5, counterexample.  A response carrying the invalidation set
`["/somewhere/else"]` for a request on path `"/p"` with an (empty) cache
present: after the call the payload IS stored in the cache under `"/p"` —
`wrapVisitEndpoint` stores the un-wrapped response whenever a cache exists and
only afterwards clears the keys listed in the envelope — contradicting the
claim that the payload is not stored when an invalidation set is present. -/
theorem c5_payload_cached_despite_invalidation :
    (wrapCall
        { accessToken := "t", cache := some [], storePromises := false,
          visitEndpoint := fun _ =>
            EndpointResults.withUncache (7 : Nat) ["/somewhere/else"] }
        { path := "/p", method := "POST", params := [] }).cacheAfter
      = some [("/p", CacheEntry.value 7)]
    ∧ (wrapCall
        { accessToken := "t", cache := some [], storePromises := false,
          visitEndpoint := fun _ =>
            EndpointResults.withUncache (7 : Nat) ["/somewhere/else"] }
        { path := "/p", method := "POST", params := [] }).chain = some 7 := by
  exact ⟨rfl, rfl⟩

/-- C7, counterexample.  A configuration that supplies its own cache instance
AND a cache-type selector naming the unsupported type `"redis"`: construction
succeeds — the whole cache-initialization block of `_preProcessParams`
(including the `invalid_cache` throw) is skipped whenever `config.cache` is
already set, so the claim's "for every configuration" fails. -/
theorem c7_bad_selector_ignored_when_cache_provided :
    preProcessParams
        { api := false, cache := some CacheInst.provided,
          cacheType := some "redis", req := false, uncache := none }
      = Except.ok
        { api := true, cache := some CacheInst.provided,
          cacheType := some "redis", req := false,
          uncache := some UncacheKind.fromCache } := by
  rfl

/-- C8, counterexample.  Pre-processing the empty config returns a config with
`api` set and the dummy `uncache` installed — and because `_preProcessParams`
begins with `const config = oldConfig;`, that returned object IS the caller's
object, whose fields have therefore been mutated in place; the result differs
from the original config, refuting "no field of the argument is mutated". -/
theorem c8_preprocess_mutates_caller_config :
    preProcessParams
        { api := false, cache := none, cacheType := none, req := false,
          uncache := none }
      = Except.ok
        { api := true, cache := none, cacheType := none, req := false,
          uncache := some UncacheKind.dummy }
    ∧ ({ api := true, cache := none, cacheType := none, req := false,
          uncache := some UncacheKind.dummy } : EcConfig)
      ≠ { api := false, cache := none, cacheType := none, req := false,
          uncache := none } := by
  exact ⟨rfl, by decide⟩

/-- C10.  `Other.endpoint` hands the invalidation set `['*']` to the `uncache`
closure; `'*'.split('*')[0]` is the empty prefix, every cached key starts with
it, so the run deletes the cache's entire current key listing: for every cache
state the cache is empty afterwards. -/
theorem c10_star_pattern_empties_cache {α : Type} (c : Cache α) :
    uncacheRun otherEndpointUncachePaths c = [] := by
  have hstar : jsEndsWith "*" "*" = true := by decide
  have hhead : jsSplitStarHead "*" = "" := by decide
  have hfilter :
      (getAllPaths c).filter (fun cp => jsStartsWith cp (jsSplitStarHead "*"))
        = getAllPaths c := by
    rw [List.filter_eq_self]
    intro a _
    rw [hhead]
    exact jsStartsWith_empty a
  show deletePaths c (pathsToUncache (getAllPaths c) ["*"]) = []
  rw [pathsToUncache, pathsToUncache, hstar]
  simp only [if_pos, List.append_nil, hfilter]
  exact deletePaths_getAllPaths c

/-- C2, amended.  For an invalidation set containing the wildcard pattern
`P ++ "*"` — with the code's computed prefix (text before the first `'*'`)
equal to `P`, i.e. `P` itself wildcard-free — whose other entries are all
literal paths: every currently cached key starting with `P` is absent after
the `uncache` run, and every key that neither starts with `P` nor is named
literally in the set keeps its cached value. -/
theorem c2_wildcard_invalidation_amended {α : Type} (paths : List String)
    (c : Cache α) (P : String)
    (hmem : (P ++ "*") ∈ paths)
    (hP : jsSplitStarHead (P ++ "*") = P)
    (honly : ∀ q ∈ paths, q = P ++ "*" ∨ jsEndsWith q "*" = false) :
    (∀ k, k ∈ getAllPaths c → jsStartsWith k P = true →
        cacheGet (uncacheRun paths c) k = none)
    ∧ (∀ k, jsStartsWith k P = false → ¬ k ∈ paths →
        cacheGet (uncacheRun paths c) k = cacheGet c k) := by
  constructor
  · intro k hk hpre
    exact cacheGet_deletePaths_of_mem c _ k
      (mem_pathsToUncache_of_wildcard paths (getAllPaths c) P k hmem hP hk hpre)
  · intro k hpre hk
    exact cacheGet_deletePaths_of_not_mem c _ k
      (not_mem_pathsToUncache paths (getAllPaths c) P k hP honly hpre hk)

/-- Witness for C2 (amended): on the demo set and cache, the key under the
prefix `/api/v1/courses/42/` is gone and the unrelated key survives. -/
theorem c2_wildcard_invalidation_amended_witness :
    cacheGet (uncacheRun wildcardDemoPaths wildcardDemoCache)
        "/api/v1/courses/42/assignments" = none
    ∧ cacheGet (uncacheRun wildcardDemoPaths wildcardDemoCache)
        "/api/v1/users/9" = some 2 := by
  refine ⟨?_, ?_⟩
  · exact (c2_wildcard_invalidation_amended wildcardDemoPaths wildcardDemoCache
      "/api/v1/courses/42/" (by decide) (by decide) (by decide)).1
      "/api/v1/courses/42/assignments" (by decide) (by decide)
  · have h := (c2_wildcard_invalidation_amended wildcardDemoPaths wildcardDemoCache
      "/api/v1/courses/42/" (by decide) (by decide) (by decide)).2
      "/api/v1/users/9" (by decide) (by decide)
    rw [h]
    rfl

/-- C3.  For every Operation with non-empty `requiredParams`, invoking it with
any required field omitted fails with `MissingParameter` naming exactly the
missing fields, dispatches zero requests (so no implicit default for a
required field is ever formed — the core function never runs). -/
theorem c3_missing_required_params (requiredParams : List String)
    (core : CallOptions → ReqShape) (opts : CallOptions)
    (h : ∃ r ∈ requiredParams, optGet opts r = none) :
    invokeEndpoint requiredParams core opts
      = (Except.error (CacclErr.missingParameter
          (requiredParams.filter (fun r => (optGet opts r).isNone))), 0)
    ∧ (∀ r, r ∈ requiredParams.filter (fun r => (optGet opts r).isNone)
        ↔ (r ∈ requiredParams ∧ optGet opts r = none)) := by
  obtain ⟨r0, hr0, hn0⟩ := h
  have hne : requiredParams.filter (fun r => (optGet opts r).isNone) ≠ [] := by
    apply List.ne_nil_of_mem (a := r0)
    exact List.mem_filter.mpr ⟨hr0, by simp [hn0]⟩
  constructor
  · simp [invokeEndpoint, hne]
  · intro r
    simp [List.mem_filter, Option.isNone_iff_eq_none]

/-- Witness for C3: `GroupSet.create` (requires `courseId` and `name`) invoked
without `name` fails with `MissingParameter ["name"]` and zero requests; in
particular the `'Unnamed Group Set'` default is never substituted. -/
theorem c3_missing_required_params_witness :
    (∃ r ∈ groupSetCreateRequiredParams,
        optGet [("courseId", "52")] r = none)
    ∧ invokeEndpoint groupSetCreateRequiredParams groupSetCreateCore
        [("courseId", "52")]
      = (Except.error (CacclErr.missingParameter ["name"]), 0) := by
  refine ⟨⟨"name", by decide, rfl⟩, ?_⟩
  exact (c3_missing_required_params groupSetCreateRequiredParams
    groupSetCreateCore [("courseId", "52")] ⟨"name", by decide, rfl⟩).1

/-- C5, amended.  On a cache miss with a cache present, when the transport
resolves with an invalidation envelope `{response := v, uncache := u}`: the
promise chain yields the un-wrapped payload `v` (the envelope is never part of
that value), but the payload (or, in promise-storing mode, the in-flight
promise) IS stored under the request's cache key, and afterwards each key
literally listed in `u` is cleared — so the payload remains cached unless its
own path is listed in `u`. -/
theorem c5_envelope_handling_amended {α : Type} (cfg : WrapConfig α)
    (options : ReqOptions) (c : Cache (CacheEntry α)) (v : α) (u : List String)
    (hc : cfg.cache = some c)
    (hmiss : cacheGet c options.path = none)
    (hresp : cfg.visitEndpoint
        { options with
          params := setParam options.params "access_token" cfg.accessToken }
      = EndpointResults.withUncache v u) :
    (wrapCall cfg options).chain = some v
    ∧ (wrapCall cfg options).cacheAfter
      = some (u.foldl (fun acc key => cacheClear acc key)
          (cacheSet c options.path
            (if cfg.storePromises then CacheEntry.promise v
             else CacheEntry.value v)))
    ∧ (wrapCall cfg options).networkCalls = 1 := by
  have hcall : wrapCall cfg options = wrapMiss cfg options := by
    simp [wrapCall, hc, hmiss]
  rw [hcall]
  cases hb : cfg.storePromises <;>
    simp [wrapMiss, hc, hresp, hb]

/-- Witness for C5 (amended): concrete envelope `{response := 7, uncache :=
["/q"]}` on path `"/p"` over a cache holding `"/q"`. -/
theorem c5_envelope_handling_amended_witness :
    (wrapCall
        { accessToken := "t", cache := some [("/q", CacheEntry.value 9)],
          storePromises := false,
          visitEndpoint := fun _ =>
            EndpointResults.withUncache (7 : Nat) ["/q"] }
        { path := "/p", method := "POST", params := [] }).chain = some 7
    ∧ (wrapCall
        { accessToken := "t", cache := some [("/q", CacheEntry.value 9)],
          storePromises := false,
          visitEndpoint := fun _ =>
            EndpointResults.withUncache (7 : Nat) ["/q"] }
        { path := "/p", method := "POST", params := [] }).cacheAfter
      = some (["/q"].foldl (fun acc key => cacheClear acc key)
          (cacheSet [("/q", CacheEntry.value 9)] "/p"
            (if false then CacheEntry.promise (7 : Nat)
             else CacheEntry.value (7 : Nat))))
    ∧ (wrapCall
        { accessToken := "t", cache := some [("/q", CacheEntry.value 9)],
          storePromises := false,
          visitEndpoint := fun _ =>
            EndpointResults.withUncache (7 : Nat) ["/q"] }
        { path := "/p", method := "POST", params := [] }).networkCalls = 1 :=
  c5_envelope_handling_amended
    { accessToken := "t", cache := some [("/q", CacheEntry.value 9)],
      storePromises := false,
      visitEndpoint := fun _ => EndpointResults.withUncache (7 : Nat) ["/q"] }
    { path := "/p", method := "POST", params := [] }
    [("/q", CacheEntry.value 9)] 7 ["/q"] rfl rfl rfl

/-- The cache-initialization block rejects a selector that names no supported
cache, provided no cache instance was passed in. -/
theorem initCacheStep_error (config : EcConfig) (t : String)
    (hc : config.cache = none) (ht : config.cacheType = some t)
    (hne : t ≠ "") (hmem : t ≠ "memory")
    (hses : t = "session" → config.req = false) :
    initCacheStep config = Except.error CacclErr.invalidCache := by
  by_cases ht2 : t = "session"
  · subst ht2
    have hr := hses rfl
    simp [initCacheStep, hc, ht, hr, jsTruthyStr, hne]
  · simp [initCacheStep, hc, ht, hmem, ht2, jsTruthyStr, hne]

/-- C7, amended.  When no cache instance is supplied in the configuration and
the cache-type selector is a non-empty string naming anything other than
`'memory'` — and not `'session'` accompanied by a session handle —
construction fails with the `invalid_cache` error.  (When a cache instance is
supplied the selector is ignored entirely.) -/
theorem c7_invalid_cache_config_amended (cfg : EcConfig) (t : String)
    (hc : cfg.cache = none) (ht : cfg.cacheType = some t)
    (hne : t ≠ "") (hmem : t ≠ "memory")
    (hses : t = "session" → cfg.req = false) :
    preProcessParams cfg = Except.error CacclErr.invalidCache := by
  cases hapi : cfg.api with
  | true =>
      simp only [preProcessParams, hapi, if_true]
      rw [initCacheStep_error cfg t hc ht hne hmem hses]
      rfl
  | false =>
      simp only [preProcessParams, hapi, Bool.false_eq_true, if_false]
      rw [initCacheStep_error { cfg with api := true } t hc ht hne hmem hses]
      rfl

/-- Witness for C7 (amended): cache excluded with selector `"redis"`, and
cache excluded with selector `"session"` but no session handle — both fail
with the `invalid_cache` error. -/
theorem c7_invalid_cache_config_amended_witness :
    preProcessParams
        { api := false, cache := none, cacheType := some "redis",
          req := false, uncache := none }
      = Except.error CacclErr.invalidCache
    ∧ preProcessParams
        { api := false, cache := none, cacheType := some "session",
          req := false, uncache := none }
      = Except.error CacclErr.invalidCache :=
  ⟨c7_invalid_cache_config_amended
      { api := false, cache := none, cacheType := some "redis",
        req := false, uncache := none }
      "redis" rfl rfl (by decide) (by decide) (by decide),
   c7_invalid_cache_config_amended
      { api := false, cache := none, cacheType := some "session",
        req := false, uncache := none }
      "session" rfl rfl (by decide) (by decide) (by decide)⟩

/-- What the cache-initialization block leaves untouched when it succeeds, and
that it keeps a cache that was already present. -/
theorem initCacheStep_ok_spec (config mid : EcConfig)
    (h : initCacheStep config = Except.ok mid) :
    mid.api = config.api ∧ mid.cacheType = config.cacheType
    ∧ mid.req = config.req ∧ mid.uncache = config.uncache
    ∧ (config.cache.isSome = true → mid.cache = config.cache) := by
  rw [initCacheStep] at h
  split at h
  · simp only [Except.ok.injEq] at h
    subst h
    exact ⟨rfl, rfl, rfl, rfl, fun _ => rfl⟩
  · split at h
    · simp only [Except.ok.injEq] at h
      subst h
      refine ⟨rfl, rfl, rfl, rfl, ?_⟩
      intro hs
      simp_all
    · split at h
      · simp only [Except.ok.injEq] at h
        subst h
        refine ⟨rfl, rfl, rfl, rfl, ?_⟩
        intro hs
        simp_all
      · split at h
        · cases h
        · simp only [Except.ok.injEq] at h
          subst h
          exact ⟨rfl, rfl, rfl, rfl, fun _ => rfl⟩

/-- C8, amended.  `_preProcessParams` is not pure: because of the
`const config = oldConfig;` aliasing, the returned config is the caller's own
object mutated in place — `api` is always set on it, `uncache` is always
filled in; but `cacheType` and `req` are untouched, and a `cache` or `uncache`
that was already present is kept. -/
theorem c8_mutation_amended (cfg cfg' : EcConfig)
    (h : preProcessParams cfg = Except.ok cfg') :
    cfg'.api = true
    ∧ cfg'.cacheType = cfg.cacheType
    ∧ cfg'.req = cfg.req
    ∧ (cfg.cache.isSome = true → cfg'.cache = cfg.cache)
    ∧ (cfg.uncache.isSome = true → cfg'.uncache = cfg.uncache)
    ∧ cfg'.uncache.isSome = true := by
  rw [preProcessParams] at h
  have hmid : ∃ mid, initCacheStep (if cfg.api then cfg else { cfg with api := true })
      = Except.ok mid ∧ cfg' = initUncacheStep mid := by
    cases hic : initCacheStep (if cfg.api then cfg else { cfg with api := true }) with
    | ok mid =>
        rw [hic] at h
        simp only [Except.map, Except.ok.injEq] at h
        exact ⟨mid, rfl, h.symm⟩
    | error e =>
        rw [hic] at h
        simp [Except.map] at h
  obtain ⟨mid, hic, hcfg⟩ := hmid
  have hspec := initCacheStep_ok_spec _ mid hic
  have hbase : (if cfg.api then cfg else { cfg with api := true }).api = true
      ∧ (if cfg.api then cfg else { cfg with api := true }).cacheType = cfg.cacheType
      ∧ (if cfg.api then cfg else { cfg with api := true }).req = cfg.req
      ∧ (if cfg.api then cfg else { cfg with api := true }).cache = cfg.cache
      ∧ (if cfg.api then cfg else { cfg with api := true }).uncache = cfg.uncache := by
    cases hapi : cfg.api <;> simp [hapi]
  obtain ⟨hb1, hb2, hb3, hb4, hb5⟩ := hbase
  obtain ⟨hs1, hs2, hs3, hs4, hs5⟩ := hspec
  subst hcfg
  have hu : (initUncacheStep mid).api = mid.api
      ∧ (initUncacheStep mid).cacheType = mid.cacheType
      ∧ (initUncacheStep mid).req = mid.req
      ∧ (initUncacheStep mid).cache = mid.cache
      ∧ (mid.uncache.isSome = true → (initUncacheStep mid).uncache = mid.uncache)
      ∧ (initUncacheStep mid).uncache.isSome = true := by
    rw [initUncacheStep]
    split
    · rename_i hsome
      exact ⟨rfl, rfl, rfl, rfl, fun _ => rfl, hsome⟩
    · split <;> exact ⟨rfl, rfl, rfl, rfl, by simp_all, rfl⟩
  obtain ⟨hu1, hu2, hu3, hu4, hu5, hu6⟩ := hu
  refine ⟨?_, ?_, ?_, ?_, ?_, hu6⟩
  · rw [hu1, hs1, hb1]
  · rw [hu2, hs2, hb2]
  · rw [hu3, hs3, hb3]
  · intro hcached
    rw [hu4, hs5 (by rw [hb4]; exact hcached), hb4]
  · intro huncached
    have hmidu : mid.uncache = cfg.uncache := by rw [hs4, hb5]
    rw [hu5 (by rw [hmidu]; exact huncached), hmidu]

/-- Witness for C8 (amended): pre-processing the empty config yields the
mutated object — `api` set, the dummy `uncache` installed, `cacheType` and
`req` untouched. -/
theorem c8_mutation_amended_witness :
    mutatedEcConfig.api = true
    ∧ mutatedEcConfig.cacheType = emptyEcConfig.cacheType
    ∧ mutatedEcConfig.req = emptyEcConfig.req
    ∧ (emptyEcConfig.cache.isSome = true →
        mutatedEcConfig.cache = emptyEcConfig.cache)
    ∧ (emptyEcConfig.uncache.isSome = true →
        mutatedEcConfig.uncache = emptyEcConfig.uncache)
    ∧ mutatedEcConfig.uncache.isSome = true :=
  c8_mutation_amended emptyEcConfig mutatedEcConfig rfl

/-- C9.  Retry law: with `numRetries = N`, a transport failing transiently on
attempts `0..N-1` and succeeding on attempt `N` yields the success after
exactly `N + 1` transport invocations; a transport failing transiently on all
of attempts `0..N` yields `RequestFailed` after exactly `N + 1` invocations;
and `numRetries = 0` always means exactly one attempt. -/
theorem c9_retry_law {α : Type} (N : Nat) (transport : Nat → TransportResult α)
    (v : α) :
    ((∀ i, i < N → transport i = TransportResult.transient) →
        transport N = TransportResult.ok v →
        runWithRetries transport N = (Except.ok v, N + 1))
    ∧ ((∀ i, i ≤ N → transport i = TransportResult.transient) →
        runWithRetries transport N = (Except.error CacclErr.requestFailed, N + 1))
    ∧ (runWithRetries transport 0).2 = 1 := by
  refine ⟨?_, ?_, ?_⟩
  · intro hlt hok
    have h := retryGo_ok transport v N 0
      (by intro i hi; simpa using hlt i hi) (by simpa using hok)
    simpa [runWithRetries] using h
  · intro hle
    have h := retryGo_exhaust transport N 0
      (by intro i hi; simpa using hle i hi)
    simpa [runWithRetries] using h
  · cases h : transport 0 <;> simp [runWithRetries, retryGo, h]

/-- Witness for C9: with `numRetries = 2`, the twice-failing transport
succeeds on the third attempt; the always-failing transport gives
`RequestFailed` after three attempts. -/
theorem c9_retry_law_witness :
    runWithRetries retryDemoOk 2 = (Except.ok 7, 3)
    ∧ runWithRetries retryDemoFail 2
      = (Except.error CacclErr.requestFailed, 3) :=
  ⟨(c9_retry_law 2 retryDemoOk 7).1 (by decide) (by decide),
   (c9_retry_law 2 retryDemoFail 7).2.1 (by decide)⟩

end CacclApi
